import Mathlib

/-!
Shallow embedding of the geometric matching logic of the sleeve-placement
script (src/script.py).  Coordinates are modelled as exact rationals; the
host geometry kernel's face objects are modelled as records whose `project`,
`evaluate` and `computeNormal` fields stand for the corresponding host API
calls.  A `project` result of `none` models a failed / unsupported
projection (Python: `face.Project(pt)` returning a falsy value).
-/

/-- A 3D point / vector (host API `XYZ`), with exact rational coordinates. -/
structure XYZ where
  x : ℚ
  y : ℚ
  z : ℚ
deriving DecidableEq, Repr

namespace XYZ

/-- Componentwise subtraction, `point - sample_pt` in the script. -/
def sub (a b : XYZ) : XYZ := ⟨a.x - b.x, a.y - b.y, a.z - b.z⟩

/-- Host API `XYZ.DotProduct`. -/
def dotProduct (a b : XYZ) : ℚ := a.x * b.x + a.y * b.y + a.z * b.z

/-- Host API `XYZ.CrossProduct`. -/
def crossProduct (a b : XYZ) : XYZ :=
  ⟨a.y * b.z - a.z * b.y, a.z * b.x - a.x * b.z, a.x * b.y - a.y * b.x⟩

/-- Host API `XYZ.BasisX`. -/
def basisX : XYZ := ⟨1, 0, 0⟩

/-- Host API `XYZ.BasisY`. -/
def basisY : XYZ := ⟨0, 1, 0⟩

/-- Host API `XYZ.IsZeroLength`, exact-arithmetic model: all components zero. -/
def isZeroLength (v : XYZ) : Bool :=
  decide (v.x = 0) && decide (v.y = 0) && decide (v.z = 0)

end XYZ

/-- A parametric surface coordinate (host API `UV`). -/
structure UV where
  u : ℚ
  v : ℚ
deriving DecidableEq, Repr

/-- Host API `BoundingBoxXYZ`: axis-aligned box given by `Min` and `Max`. -/
structure BoundingBox where
  min : XYZ
  max : XYZ
deriving DecidableEq, Repr

/--
A host geometry `Face`.  `id` models Python object identity (which face of
the model this is); `project pt` models `face.Project(pt)`, yielding the
projection `Distance` when the projection succeeds and `none` when the host
returns no result; `evaluate` and `computeNormal` model `face.Evaluate(uv)`
and `face.ComputeNormal(uv)`; `isPlanar` models
`isinstance(face, DB.PlanarFace)`.
-/
structure Face where
  id : Nat
  project : XYZ → Option ℚ
  evaluate : UV → XYZ
  computeNormal : UV → XYZ
  isPlanar : Bool

/-- A host geometry `Solid`: a bag of faces (`solid.Faces`), in enumeration
order. -/
structure Solid where
  faces : List Face

/-- One object of a host `GeometryElement`: either a `DB.Solid` or some other
geometry object (curve, mesh, instance, ...), which the script ignores. -/
inductive GeoObject where
  | solid (s : Solid)
  | other


/-- The faces the nested loops `for geo_obj in geo_element: if
isinstance(geo_obj, DB.Solid): for face in geo_obj.Faces` visit, in order. -/
def facesOf (geo : List GeoObject) : List Face :=
  geo.foldr (fun g acc => match g with | .solid s => s.faces ++ acc | .other => acc) []

/-- src/script.py lines 27-30: axis-aligned bounding-box overlap test. -/
def do_bounding_boxes_intersect (bbox1 bbox2 : BoundingBox) : Bool :=
  decide (bbox1.min.x ≤ bbox2.max.x) && decide (bbox1.max.x ≥ bbox2.min.x) &&
  decide (bbox1.min.y ≤ bbox2.max.y) && decide (bbox1.max.y ≥ bbox2.min.y) &&
  decide (bbox1.min.z ≤ bbox2.max.z) && decide (bbox1.max.z ≥ bbox2.min.z)

/--
One iteration of the primary loop of `find_intersecting_face_based_on_far_end`
(script lines 54-60): project the point onto the face; on success accept the
face when `distance < min_distance and distance <= tolerance`.  The
accumulator `some (f, m)` holds the current `closest_face` and
`min_distance`; `none` is the initial `closest_face = None`,
`min_distance = inf` state (so `distance < min_distance` is then always
true).
-/
def primaryStep (pt : XYZ) (tolerance : ℚ) (acc : Option (Face × ℚ)) (face : Face) :
    Option (Face × ℚ) :=
  match face.project pt with
  | none => acc
  | some distance =>
    match acc with
    | none => if distance ≤ tolerance then some (face, distance) else none
    | some (f, m) =>
        if distance < m ∧ distance ≤ tolerance then some (face, distance) else some (f, m)

/-- src/script.py lines 45-61 (`find_intersecting_face_based_on_far_end`):
scaled-tolerance primary projection search over the solids of a geometry
element; no fallback pass. -/
def find_intersecting_face_based_on_far_end (geo_element : List GeoObject)
    (far_end_point : XYZ) (equip_bbox : BoundingBox) (base_tolerance : ℚ := 1/5) :
    Option Face :=
  let diameter := max (equip_bbox.max.x - equip_bbox.min.x)
                      (equip_bbox.max.y - equip_bbox.min.y)
  let threshold : ℚ := 3937/10000
  let tolerance := if diameter > threshold
                   then base_tolerance * (diameter / threshold) else base_tolerance
  ((facesOf geo_element).foldl (primaryStep far_end_point tolerance) none).map Prod.fst

/--
One iteration of the primary loop of `find_intersecting_face` (script lines
66-73): like `primaryStep` but with no tolerance check, tracking only the
minimum projection distance.
-/
def projStep (pt : XYZ) (acc : Option (Face × ℚ)) (face : Face) : Option (Face × ℚ) :=
  match face.project pt with
  | none => acc
  | some distance =>
    match acc with
    | none => some (face, distance)
    | some (f, m) => if distance < m then some (face, distance) else some (f, m)

/-- script line 75: `[DB.UV(u, v) for u in [0.2, 0.4, 0.6, 0.8] for v in
[0.2, 0.4, 0.6, 0.8]]`. -/
def sample_uvs : List UV :=
  ([1/5, 2/5, 3/5, 4/5] : List ℚ).foldr
    (fun u acc => (([1/5, 2/5, 3/5, 4/5] : List ℚ).map fun v => UV.mk u v) ++ acc) []

/-- The approximate perpendicular distance computed at one fallback sample
(script line 83): `abs((point - sample_pt).DotProduct(normal))`. -/
def sampleDist (pt : XYZ) (face : Face) (uv : UV) : ℚ :=
  |XYZ.dotProduct (XYZ.sub pt (face.evaluate uv)) (face.computeNormal uv)|

/--
One sample of the fallback loop of `find_intersecting_face` (script lines
80-86): the perpendicular distance at `uv` is accepted when
`dist < tolerance and dist < min_distance`.
-/
def fallbackUVStep (pt : XYZ) (tolerance : ℚ) (face : Face) (a : Option (Face × ℚ))
    (uv : UV) : Option (Face × ℚ) :=
  let dist := sampleDist pt face uv
  if dist < tolerance then
    match a with
    | none => some (face, dist)
    | some (f, m) => if dist < m then some (face, dist) else some (f, m)
  else a

/--
One face of the fallback loop of `find_intersecting_face` (script lines
78-86): only `PlanarFace` instances are sampled, over the 16 sample UVs.
-/
def fallbackStep (pt : XYZ) (tolerance : ℚ) (acc : Option (Face × ℚ)) (face : Face) :
    Option (Face × ℚ) :=
  if face.isPlanar then sample_uvs.foldl (fallbackUVStep pt tolerance face) acc
  else acc

/-- src/script.py lines 63-87 (`find_intersecting_face`): primary projection
pass tracking the minimum distance with no tolerance check, then — when no
face projected at all or the minimum exceeds the tolerance — a fallback
sampling pass over planar faces that continues from the primary pass's
`closest_face` / `min_distance` state. -/
def find_intersecting_face (geo_element : List GeoObject) (point : XYZ)
    (tolerance : ℚ := 1/5) : Option Face :=
  let primary := (facesOf geo_element).foldl (projStep point) none
  let final :=
    match primary with
    | none => (facesOf geo_element).foldl (fallbackStep point tolerance) none
    | some (f, m) =>
        if m > tolerance then
          (facesOf geo_element).foldl (fallbackStep point tolerance) (some (f, m))
        else some (f, m)
  final.map Prod.fst

/--
src/script.py lines 196-204, the orientation computation of
`place_family_instance_at_location`: the face normal at UV (0.5, 0.5) is
crossed with the X basis vector; if that is zero-length the Y basis vector
is used instead.  The result is the vector that is then normalized and
passed to `NewFamilyInstance` (a host API call, out of scope).
-/
def place_family_instance_reference_direction (face : Face) : XYZ :=
  let face_normal := face.computeNormal ⟨1/2, 1/2⟩
  let reference_direction := XYZ.crossProduct face_normal XYZ.basisX
  if XYZ.isZeroLength reference_direction then
    XYZ.crossProduct face_normal XYZ.basisY
  else reference_direction

/-- The primary projection pass alone, with an explicit tolerance argument
(the loop of script lines 50-61 abstracted over the tolerance). -/
def primary_search (geo_element : List GeoObject) (pt : XYZ) (tolerance : ℚ) :
    Option Face :=
  ((facesOf geo_element).foldl (primaryStep pt tolerance) none).map Prod.fst

/-- The tolerance formula as the spec states it, for comparison with the
inline computation of `find_intersecting_face_based_on_far_end`: the nominal
diameter is the larger of the box's X- and Y-extents, and the base tolerance
is scaled by `diameter / threshold` exactly when the diameter exceeds the
threshold 0.3937 ft. -/
def spec_effective_tolerance (bbox : BoundingBox) (base_tolerance : ℚ) : ℚ :=
  let diameter := max (bbox.max.x - bbox.min.x) (bbox.max.y - bbox.min.y)
  if diameter > 3937/10000 then base_tolerance * (diameter / (3937/10000))
  else base_tolerance

/-- `isinstance(geo_obj, DB.Solid)` as a Boolean test on geometry objects. -/
def isSolidObj : GeoObject → Bool
  | .solid _ => true
  | .other => false

/-- Replacing a face's sampling callbacks (`Evaluate` / `ComputeNormal`)
while keeping its identity, projection behaviour and planarity. -/
def reviseSampling (E N : UV → XYZ) (f : Face) : Face :=
  { f with evaluate := E, computeNormal := N }

/-- `reviseSampling` applied throughout a geometry object. -/
def reviseGeo (E N : UV → XYZ) : GeoObject → GeoObject
  | .solid s => .solid ⟨s.faces.map (reviseSampling E N)⟩
  | .other => .other

/-- A test-fixture face: id `i`, constant projection result `p`, constant
sample point `(0, 0, -s)` and constant normal `(0, 0, 1)` (so the sample
distance from the origin is `s` when `s ≥ 0`), planarity flag `planar`. -/
def demoFace (i : Nat) (p : Option ℚ) (s : ℚ) (planar : Bool) : Face :=
  ⟨i, fun _ => p, fun _ => ⟨0, 0, -s⟩, fun _ => ⟨0, 0, 1⟩, planar⟩

/-- The origin, used as a probe point in concrete instantiations. -/
def origin : XYZ := ⟨0, 0, 0⟩

/-- A degenerate bounding box (diameter 0, below the scaling threshold). -/
def unitBox : BoundingBox := ⟨⟨0, 0, 0⟩, ⟨0, 0, 0⟩⟩

/-- A bounding box of diameter 1 (above the scaling threshold). -/
def wideBox : BoundingBox := ⟨⟨0, 0, 0⟩, ⟨1, 1, 1⟩⟩

/-- A test-fixture face whose normal is the X axis, so that crossing the
normal with `BasisX` yields the zero vector. -/
def xAxisFace : Face :=
  ⟨9, fun _ => none, fun _ => ⟨0, 0, 0⟩, fun _ => ⟨1, 0, 0⟩, true⟩


/-! ### Basic lemmas about the loop bodies -/

lemma facesOf_cons (g : GeoObject) (l : List GeoObject) :
    facesOf (g :: l)
      = (match g with | .solid s => s.faces | .other => []) ++ facesOf l := by
  cases g <;> simp [facesOf]

lemma facesOf_filter_solids (geo : List GeoObject) :
    facesOf (geo.filter isSolidObj) = facesOf geo := by
  induction geo with
  | nil => rfl
  | cons g l ih =>
    cases g with
    | solid s => simpa [List.filter_cons, isSolidObj, facesOf_cons] using ih
    | other => simpa [List.filter_cons, isSolidObj, facesOf_cons] using ih

lemma primaryStep_of_proj_none {pt : XYZ} {tol : ℚ} {acc : Option (Face × ℚ)}
    {face : Face} (h : face.project pt = none) :
    primaryStep pt tol acc face = acc := by
  simp [primaryStep, h]

lemma primaryStep_of_not_within {pt : XYZ} {tol : ℚ} {acc : Option (Face × ℚ)}
    {face : Face} (h : ∀ d, face.project pt = some d → ¬ d ≤ tol) :
    primaryStep pt tol acc face = acc := by
  cases hp : face.project pt with
  | none => exact primaryStep_of_proj_none hp
  | some d =>
    have hd := h d hp
    cases acc with
    | none => simp [primaryStep, hp, hd]
    | some p =>
      obtain ⟨f, m⟩ := p
      simp only [primaryStep, hp]
      rw [if_neg (fun hc => hd hc.2)]

lemma foldl_primaryStep_of_not_within {pt : XYZ} {tol : ℚ} {faces : List Face}
    {acc : Option (Face × ℚ)}
    (h : ∀ f ∈ faces, ∀ d, f.project pt = some d → ¬ d ≤ tol) :
    faces.foldl (primaryStep pt tol) acc = acc := by
  induction faces generalizing acc with
  | nil => rfl
  | cons a l ih =>
    rw [List.foldl_cons, primaryStep_of_not_within (h a (List.mem_cons_self a l))]
    exact ih fun f hf => h f (List.mem_cons_of_mem a hf)

lemma primaryStep_inv {pt : XYZ} {tol : ℚ} {acc : Option (Face × ℚ)} {face : Face}
    (h : ∀ g m, acc = some (g, m) → g.project pt = some m ∧ m ≤ tol) :
    ∀ g m, primaryStep pt tol acc face = some (g, m) →
      g.project pt = some m ∧ m ≤ tol := by
  intro g m hg
  cases hp : face.project pt with
  | none => rw [primaryStep_of_proj_none hp] at hg; exact h g m hg
  | some d =>
    cases acc with
    | none =>
      simp only [primaryStep, hp] at hg
      split_ifs at hg with hd
      · obtain ⟨rfl, rfl⟩ : face = g ∧ d = m := by simpa using hg
        exact ⟨hp, hd⟩
    | some p =>
      obtain ⟨f, m0⟩ := p
      simp only [primaryStep, hp] at hg
      split_ifs at hg with hd
      · obtain ⟨rfl, rfl⟩ : face = g ∧ d = m := by simpa using hg
        exact ⟨hp, hd.2⟩
      · obtain ⟨rfl, rfl⟩ : f = g ∧ m0 = m := by simpa using hg
        exact h _ _ rfl

lemma foldl_primaryStep_inv {pt : XYZ} {tol : ℚ} {faces : List Face}
    {acc : Option (Face × ℚ)}
    (h : ∀ g m, acc = some (g, m) → g.project pt = some m ∧ m ≤ tol) :
    ∀ g m, faces.foldl (primaryStep pt tol) acc = some (g, m) →
      g.project pt = some m ∧ m ≤ tol := by
  induction faces generalizing acc with
  | nil => exact h
  | cons a l ih => exact ih (primaryStep_inv h)

lemma projStep_of_proj_none {pt : XYZ} {acc : Option (Face × ℚ)} {face : Face}
    (h : face.project pt = none) : projStep pt acc face = acc := by
  simp [projStep, h]

lemma foldl_projStep_of_none {pt : XYZ} {faces : List Face} {acc : Option (Face × ℚ)}
    (h : ∀ f ∈ faces, f.project pt = none) :
    faces.foldl (projStep pt) acc = acc := by
  induction faces generalizing acc with
  | nil => rfl
  | cons a l ih =>
    rw [List.foldl_cons, projStep_of_proj_none (h a (List.mem_cons_self a l))]
    exact ih fun f hf => h f (List.mem_cons_of_mem a hf)

lemma crossX_components (n : XYZ) :
    XYZ.crossProduct n XYZ.basisX = ⟨0, n.z, -n.y⟩ := by
  simp [XYZ.crossProduct, XYZ.basisX, XYZ.mk.injEq]

lemma crossY_components (n : XYZ) :
    XYZ.crossProduct n XYZ.basisY = ⟨-n.z, 0, n.x⟩ := by
  simp [XYZ.crossProduct, XYZ.basisY, XYZ.mk.injEq]

lemma facesOf_map_reviseGeo (E N : UV → XYZ) (geo : List GeoObject) :
    facesOf (geo.map (reviseGeo E N)) = (facesOf geo).map (reviseSampling E N) := by
  induction geo with
  | nil => rfl
  | cons g l ih =>
    cases g with
    | solid s => simp [reviseGeo, facesOf_cons, ih]
    | other => simp [reviseGeo, facesOf_cons, ih]

lemma primaryStep_revise (pt : XYZ) (tol : ℚ) (E N : UV → XYZ)
    (acc : Option (Face × ℚ)) (face : Face) :
    primaryStep pt tol (acc.map fun p => (reviseSampling E N p.1, p.2))
        (reviseSampling E N face)
      = (primaryStep pt tol acc face).map fun p => (reviseSampling E N p.1, p.2) := by
  have hpr : (reviseSampling E N face).project = face.project := rfl
  cases hp : face.project pt with
  | none => simp [primaryStep, hpr, hp]
  | some d =>
    cases acc with
    | none =>
      simp only [primaryStep, hpr, hp, Option.map_none']
      split_ifs <;> rfl
    | some p =>
      obtain ⟨f, m⟩ := p
      simp only [primaryStep, hpr, hp, Option.map_some']
      split_ifs <;> rfl

lemma foldl_primaryStep_revise (pt : XYZ) (tol : ℚ) (E N : UV → XYZ)
    (faces : List Face) (acc : Option (Face × ℚ)) :
    (faces.map (reviseSampling E N)).foldl (primaryStep pt tol)
        (acc.map fun p => (reviseSampling E N p.1, p.2))
      = (faces.foldl (primaryStep pt tol) acc).map
          fun p => (reviseSampling E N p.1, p.2) := by
  induction faces generalizing acc with
  | nil => rfl
  | cons a l ih =>
    rw [List.map_cons, List.foldl_cons, List.foldl_cons, primaryStep_revise]
    exact ih _


lemma far_end_primary_search (geo : List GeoObject) (pt : XYZ) (bbox : BoundingBox)
    (base : ℚ) :
    find_intersecting_face_based_on_far_end geo pt bbox base
      = primary_search geo pt (spec_effective_tolerance bbox base) := rfl

lemma demoFace_sampleDist (i : Nat) (p : Option ℚ) (s : ℚ) (b : Bool) (uv : UV) :
    sampleDist origin (demoFace i p s b) uv = |s| := by
  simp [sampleDist, demoFace, XYZ.sub, XYZ.dotProduct, origin]

lemma fallbackUVStep_of_not_within {pt : XYZ} {tol : ℚ} {face : Face}
    {a : Option (Face × ℚ)} {uv : UV} (h : ¬ sampleDist pt face uv < tol) :
    fallbackUVStep pt tol face a uv = a := by
  simp only [fallbackUVStep]
  rw [if_neg h]

lemma foldl_fallbackUVStep_of_not_within {pt : XYZ} {tol : ℚ} {face : Face}
    {l : List UV} {a : Option (Face × ℚ)}
    (h : ∀ uv ∈ l, ¬ sampleDist pt face uv < tol) :
    l.foldl (fallbackUVStep pt tol face) a = a := by
  induction l generalizing a with
  | nil => rfl
  | cons u l ih =>
    rw [List.foldl_cons, fallbackUVStep_of_not_within (h u (List.mem_cons_self u l))]
    exact ih fun uv huv => h uv (List.mem_cons_of_mem u huv)

lemma fallbackStep_of_not_planar {pt : XYZ} {tol : ℚ} {acc : Option (Face × ℚ)}
    {face : Face} (h : face.isPlanar = false) :
    fallbackStep pt tol acc face = acc := by
  simp [fallbackStep, h]

lemma fallbackStep_of_no_qualifying {pt : XYZ} {tol : ℚ} {acc : Option (Face × ℚ)}
    {face : Face}
    (h : face.isPlanar = true → ∀ uv ∈ sample_uvs, ¬ sampleDist pt face uv < tol) :
    fallbackStep pt tol acc face = acc := by
  cases hp : face.isPlanar with
  | false => exact fallbackStep_of_not_planar hp
  | true =>
    simp only [fallbackStep]
    rw [if_pos hp]
    exact foldl_fallbackUVStep_of_not_within (h hp)

lemma foldl_fallbackStep_of_no_qualifying {pt : XYZ} {tol : ℚ} {faces : List Face}
    {acc : Option (Face × ℚ)}
    (h : ∀ f ∈ faces, f.isPlanar = true → ∀ uv ∈ sample_uvs,
      ¬ sampleDist pt f uv < tol) :
    faces.foldl (fallbackStep pt tol) acc = acc := by
  induction faces generalizing acc with
  | nil => rfl
  | cons a l ih =>
    rw [List.foldl_cons, fallbackStep_of_no_qualifying (h a (List.mem_cons_self a l))]
    exact ih fun f hf => h f (List.mem_cons_of_mem a hf)

lemma fallbackUVStep_isSome_mono {pt : XYZ} {tol : ℚ} {face : Face}
    {a : Option (Face × ℚ)} {uv : UV} (h : a.isSome = true) :
    (fallbackUVStep pt tol face a uv).isSome = true := by
  simp only [fallbackUVStep]
  split_ifs with hd
  · cases a with
    | none => rfl
    | some p => obtain ⟨f, m⟩ := p; dsimp only; split_ifs <;> rfl
  · exact h

lemma foldl_fallbackUVStep_isSome_mono {pt : XYZ} {tol : ℚ} {face : Face}
    {l : List UV} {a : Option (Face × ℚ)} (h : a.isSome = true) :
    (l.foldl (fallbackUVStep pt tol face) a).isSome = true := by
  induction l generalizing a with
  | nil => exact h
  | cons u l ih => exact ih (fallbackUVStep_isSome_mono h)

lemma foldl_fallbackUVStep_isSome_of_qualifying {pt : XYZ} {tol : ℚ} {face : Face}
    {l : List UV} {a : Option (Face × ℚ)}
    (h : ∃ uv ∈ l, sampleDist pt face uv < tol) :
    (l.foldl (fallbackUVStep pt tol face) a).isSome = true := by
  induction l generalizing a with
  | nil => simp at h
  | cons u l ih =>
    rw [List.foldl_cons]
    by_cases hd : sampleDist pt face u < tol
    · apply foldl_fallbackUVStep_isSome_mono
      simp only [fallbackUVStep]
      rw [if_pos hd]
      cases a with
      | none => rfl
      | some p => obtain ⟨f, m⟩ := p; dsimp only; split_ifs <;> rfl
    · obtain ⟨uv, huv, hq⟩ := h
      rcases List.mem_cons.mp huv with rfl | hmem
      · exact absurd hq hd
      · exact ih ⟨uv, hmem, hq⟩

lemma fallbackStep_isSome_mono {pt : XYZ} {tol : ℚ} {acc : Option (Face × ℚ)}
    {face : Face} (h : acc.isSome = true) :
    (fallbackStep pt tol acc face).isSome = true := by
  cases hp : face.isPlanar with
  | false => rw [fallbackStep_of_not_planar hp]; exact h
  | true =>
    simp only [fallbackStep]
    rw [if_pos hp]
    exact foldl_fallbackUVStep_isSome_mono h

lemma foldl_fallbackStep_isSome_mono {pt : XYZ} {tol : ℚ} {faces : List Face}
    {acc : Option (Face × ℚ)} (h : acc.isSome = true) :
    (faces.foldl (fallbackStep pt tol) acc).isSome = true := by
  induction faces generalizing acc with
  | nil => exact h
  | cons a l ih => exact ih (fallbackStep_isSome_mono h)

lemma foldl_fallbackStep_isSome_of_qualifying {pt : XYZ} {tol : ℚ} {faces : List Face}
    {acc : Option (Face × ℚ)}
    (h : ∃ f ∈ faces, f.isPlanar = true ∧ ∃ uv ∈ sample_uvs, sampleDist pt f uv < tol) :
    (faces.foldl (fallbackStep pt tol) acc).isSome = true := by
  induction faces generalizing acc with
  | nil => simp at h
  | cons a l ih =>
    rw [List.foldl_cons]
    obtain ⟨f, hf, hplanar, hq⟩ := h
    rcases List.mem_cons.mp hf with rfl | hmem
    · apply foldl_fallbackStep_isSome_mono
      simp only [fallbackStep]
      rw [if_pos hplanar]
      exact foldl_fallbackUVStep_isSome_of_qualifying hq
    · exact ih ⟨f, hmem, hplanar, hq⟩

lemma fallbackUVStep_inv {pt : XYZ} {tol : ℚ} {face : Face} {a : Option (Face × ℚ)}
    {uv : UV} (huv : uv ∈ sample_uvs) (hplanar : face.isPlanar = true)
    (h : ∀ g m, a = some (g, m) →
      g.isPlanar = true ∧ m < tol ∧ ∃ w ∈ sample_uvs, sampleDist pt g w = m) :
    ∀ g m, fallbackUVStep pt tol face a uv = some (g, m) →
      g.isPlanar = true ∧ m < tol ∧ ∃ w ∈ sample_uvs, sampleDist pt g w = m := by
  intro g m hg
  simp only [fallbackUVStep] at hg
  split_ifs at hg with hd
  · cases a with
    | none =>
      obtain ⟨rfl, rfl⟩ : face = g ∧ sampleDist pt face uv = m := by simpa using hg
      exact ⟨hplanar, hd, uv, huv, rfl⟩
    | some p =>
      obtain ⟨f, m0⟩ := p
      dsimp only at hg
      split_ifs at hg with hlt
      · obtain ⟨rfl, rfl⟩ : face = g ∧ sampleDist pt face uv = m := by simpa using hg
        exact ⟨hplanar, hd, uv, huv, rfl⟩
      · obtain ⟨rfl, rfl⟩ : f = g ∧ m0 = m := by simpa using hg
        exact h _ _ rfl
  · exact h g m hg

lemma foldl_fallbackUVStep_inv {pt : XYZ} {tol : ℚ} {face : Face} {l : List UV}
    {a : Option (Face × ℚ)} (hl : ∀ uv ∈ l, uv ∈ sample_uvs)
    (hplanar : face.isPlanar = true)
    (h : ∀ g m, a = some (g, m) →
      g.isPlanar = true ∧ m < tol ∧ ∃ w ∈ sample_uvs, sampleDist pt g w = m) :
    ∀ g m, l.foldl (fallbackUVStep pt tol face) a = some (g, m) →
      g.isPlanar = true ∧ m < tol ∧ ∃ w ∈ sample_uvs, sampleDist pt g w = m := by
  induction l generalizing a with
  | nil => exact h
  | cons u l ih =>
    rw [List.foldl_cons]
    exact ih (fun uv huv => hl uv (List.mem_cons_of_mem u huv))
      (fallbackUVStep_inv (hl u (List.mem_cons_self u l)) hplanar h)

lemma fallbackStep_inv {pt : XYZ} {tol : ℚ} {acc : Option (Face × ℚ)} {face : Face}
    (h : ∀ g m, acc = some (g, m) →
      g.isPlanar = true ∧ m < tol ∧ ∃ w ∈ sample_uvs, sampleDist pt g w = m) :
    ∀ g m, fallbackStep pt tol acc face = some (g, m) →
      g.isPlanar = true ∧ m < tol ∧ ∃ w ∈ sample_uvs, sampleDist pt g w = m := by
  cases hp : face.isPlanar with
  | false => rw [fallbackStep_of_not_planar hp]; exact h
  | true =>
    simp only [fallbackStep]
    rw [if_pos hp]
    exact foldl_fallbackUVStep_inv (fun _ huv => huv) hp h

lemma foldl_fallbackStep_inv {pt : XYZ} {tol : ℚ} {faces : List Face}
    {acc : Option (Face × ℚ)}
    (h : ∀ g m, acc = some (g, m) →
      g.isPlanar = true ∧ m < tol ∧ ∃ w ∈ sample_uvs, sampleDist pt g w = m) :
    ∀ g m, faces.foldl (fallbackStep pt tol) acc = some (g, m) →
      g.isPlanar = true ∧ m < tol ∧ ∃ w ∈ sample_uvs, sampleDist pt g w = m := by
  induction faces generalizing acc with
  | nil => exact h
  | cons a l ih => exact ih (fallbackStep_inv h)


/-! ### Claim theorems -/

/-- C2: for every bounding box and base tolerance,
`find_intersecting_face_based_on_far_end` runs the primary projection search
with the tolerance given by the spec formula: nominal diameter is the larger
of the box's X- and Y-extents, tolerance is
`base_tolerance * (diameter / threshold)` when the diameter exceeds the
threshold 0.3937 ft (120 mm), and `base_tolerance` otherwise. -/
theorem spec2proof_C2 :
    ∀ (bbox : BoundingBox) (base : ℚ),
      (∀ geo pt, find_intersecting_face_based_on_far_end geo pt bbox base
          = primary_search geo pt (spec_effective_tolerance bbox base)) ∧
      (max (bbox.max.x - bbox.min.x) (bbox.max.y - bbox.min.y) > 3937/10000 →
        spec_effective_tolerance bbox base
          = base * (max (bbox.max.x - bbox.min.x) (bbox.max.y - bbox.min.y)
              / (3937/10000))) ∧
      (max (bbox.max.x - bbox.min.x) (bbox.max.y - bbox.min.y) ≤ 3937/10000 →
        spec_effective_tolerance bbox base = base) := by
  intro bbox base
  refine ⟨fun geo pt => rfl, fun h => ?_, fun h => ?_⟩
  · simp only [spec_effective_tolerance]
    rw [if_pos h]
  · simp only [spec_effective_tolerance]
    rw [if_neg (not_lt.mpr h)]

/-- Witness for C2 at concrete boxes: a diameter-1 box scales the tolerance,
a degenerate box keeps the base tolerance. -/
theorem spec2proof_C2_witness :
    (find_intersecting_face_based_on_far_end [] origin wideBox (1/5)
        = primary_search [] origin (spec_effective_tolerance wideBox (1/5))) ∧
    (max (wideBox.max.x - wideBox.min.x) (wideBox.max.y - wideBox.min.y)
        > 3937/10000 ∧
      spec_effective_tolerance wideBox (1/5)
        = 1/5 * (max (wideBox.max.x - wideBox.min.x) (wideBox.max.y - wideBox.min.y)
            / (3937/10000))) ∧
    (max (unitBox.max.x - unitBox.min.x) (unitBox.max.y - unitBox.min.y)
        ≤ 3937/10000 ∧
      spec_effective_tolerance unitBox (1/5) = 1/5) :=
  ⟨(spec2proof_C2 wideBox (1/5)).1 [] origin,
   ⟨by norm_num [wideBox], (spec2proof_C2 wideBox (1/5)).2.1 (by norm_num [wideBox])⟩,
   ⟨by norm_num [unitBox], (spec2proof_C2 unitBox (1/5)).2.2 (by norm_num [unitBox])⟩⟩

/-- C7: when the cross product of the face normal with the X basis vector is
zero-length, the placement code falls back to crossing with the Y basis
vector; consequently, whenever the face normal itself is not zero-length,
the reference direction handed to normalization and instance creation is not
zero-length. -/
theorem spec2proof_C7 :
    ∀ face : Face,
      (XYZ.isZeroLength
          (XYZ.crossProduct (face.computeNormal ⟨1/2, 1/2⟩) XYZ.basisX) = true →
        place_family_instance_reference_direction face
          = XYZ.crossProduct (face.computeNormal ⟨1/2, 1/2⟩) XYZ.basisY) ∧
      (XYZ.isZeroLength (face.computeNormal ⟨1/2, 1/2⟩) = false →
        XYZ.isZeroLength (place_family_instance_reference_direction face) = false) := by
  intro face
  constructor
  · intro h
    simp only [place_family_instance_reference_direction]
    rw [if_pos h]
  · intro hnz
    cases hb : XYZ.isZeroLength
        (XYZ.crossProduct (face.computeNormal ⟨1/2, 1/2⟩) XYZ.basisX) with
    | false =>
      have hcond : ¬ (XYZ.isZeroLength
          (XYZ.crossProduct (face.computeNormal ⟨1/2, 1/2⟩) XYZ.basisX) = true) := by
        rw [hb]; simp
      simp only [place_family_instance_reference_direction]
      rw [if_neg hcond]
      exact hb
    | true =>
      have hyz : (face.computeNormal ⟨1/2, 1/2⟩).z = 0 ∧
          (face.computeNormal ⟨1/2, 1/2⟩).y = 0 := by
        rw [crossX_components] at hb
        simpa only [XYZ.isZeroLength, Bool.and_eq_true, decide_eq_true_eq,
          neg_eq_zero, eq_self_iff_true, true_and] using hb
      have hx : (face.computeNormal ⟨1/2, 1/2⟩).x ≠ 0 := by
        intro hx0
        have hzl : XYZ.isZeroLength (face.computeNormal ⟨1/2, 1/2⟩) = true := by
          simp only [XYZ.isZeroLength, hx0, hyz.1, hyz.2, eq_self_iff_true,
            decide_True, Bool.and_self]
        rw [hnz] at hzl
        simp at hzl
      simp only [place_family_instance_reference_direction]
      rw [if_pos hb, crossY_components]
      simp only [XYZ.isZeroLength, hyz.1, neg_zero, eq_self_iff_true, decide_True,
        hx, decide_False, Bool.and_false, Bool.true_and]

/-- Witness for C7: a face whose normal is the X axis takes the fallback
branch and still yields a nonzero reference direction. -/
theorem spec2proof_C7_witness :
    (XYZ.isZeroLength
        (XYZ.crossProduct (xAxisFace.computeNormal ⟨1/2, 1/2⟩) XYZ.basisX) = true ∧
      place_family_instance_reference_direction xAxisFace
        = XYZ.crossProduct (xAxisFace.computeNormal ⟨1/2, 1/2⟩) XYZ.basisY) ∧
    (XYZ.isZeroLength (xAxisFace.computeNormal ⟨1/2, 1/2⟩) = false ∧
      XYZ.isZeroLength (place_family_instance_reference_direction xAxisFace) = false) :=
  ⟨⟨by norm_num [XYZ.isZeroLength, XYZ.crossProduct, XYZ.basisX, xAxisFace],
    (spec2proof_C7 xAxisFace).1
      (by norm_num [XYZ.isZeroLength, XYZ.crossProduct, XYZ.basisX, xAxisFace])⟩,
   ⟨by norm_num [XYZ.isZeroLength, xAxisFace],
    (spec2proof_C7 xAxisFace).2 (by norm_num [XYZ.isZeroLength, xAxisFace])⟩⟩

/-- C9: `do_bounding_boxes_intersect` is symmetric in its two arguments, and
any box whose Min is componentwise below its Max intersects itself. -/
theorem spec2proof_C9 :
    (∀ a b : BoundingBox,
      do_bounding_boxes_intersect a b = do_bounding_boxes_intersect b a) ∧
    (∀ a : BoundingBox, a.min.x ≤ a.max.x → a.min.y ≤ a.max.y →
      a.min.z ≤ a.max.z → do_bounding_boxes_intersect a a = true) := by
  constructor
  · intro a b
    simp only [do_bounding_boxes_intersect]
    rw [Bool.eq_iff_iff]
    simp only [Bool.and_eq_true, decide_eq_true_eq]
    constructor
    · rintro ⟨⟨⟨⟨⟨h1, h2⟩, h3⟩, h4⟩, h5⟩, h6⟩
      exact ⟨⟨⟨⟨⟨h2, h1⟩, h4⟩, h3⟩, h6⟩, h5⟩
    · rintro ⟨⟨⟨⟨⟨h1, h2⟩, h3⟩, h4⟩, h5⟩, h6⟩
      exact ⟨⟨⟨⟨⟨h2, h1⟩, h4⟩, h3⟩, h6⟩, h5⟩
  · intro a h1 h2 h3
    simp only [do_bounding_boxes_intersect, Bool.and_eq_true, decide_eq_true_eq]
    exact ⟨⟨⟨⟨⟨h1, h1⟩, h2⟩, h2⟩, h3⟩, h3⟩

/-- Witness for C9 at a concrete well-formed box. -/
theorem spec2proof_C9_witness :
    (do_bounding_boxes_intersect unitBox wideBox
        = do_bounding_boxes_intersect wideBox unitBox) ∧
    wideBox.min.x ≤ wideBox.max.x ∧
    do_bounding_boxes_intersect wideBox wideBox = true :=
  ⟨spec2proof_C9.1 unitBox wideBox, by norm_num [wideBox],
   spec2proof_C9.2 wideBox (by norm_num [wideBox]) (by norm_num [wideBox])
     (by norm_num [wideBox])⟩

/-- C10: both matchers ignore non-Solid geometry objects — filtering the
input collection down to its Solid members does not change the result. -/
theorem spec2proof_C10 :
    ∀ (geo : List GeoObject) (pt : XYZ) (bbox : BoundingBox) (base tol : ℚ),
      find_intersecting_face_based_on_far_end (geo.filter isSolidObj) pt bbox base
          = find_intersecting_face_based_on_far_end geo pt bbox base ∧
      find_intersecting_face (geo.filter isSolidObj) pt tol
          = find_intersecting_face geo pt tol := by
  intro geo pt bbox base tol
  constructor
  · simp only [find_intersecting_face_based_on_far_end, facesOf_filter_solids]
  · simp only [find_intersecting_face, facesOf_filter_solids]

/-- C1 fails on the code: a face whose projection succeeds with distance 1
(beyond the tolerance 1/5), and all of whose fallback sample distances are 1
(also beyond tolerance), is nevertheless returned by
`find_intersecting_face` — the primary pass tracks the minimum projection
distance without a tolerance check, and the fallback never resets
`closest_face`. -/
theorem spec2proof_C1_counterexample :
    ((demoFace 0 (some 1) 1 true).project origin = some 1 ∧ ¬ ((1 : ℚ) ≤ 1/5)) ∧
    (∀ uv ∈ sample_uvs, ¬ sampleDist origin (demoFace 0 (some 1) 1 true) uv ≤ 1/5) ∧
    (find_intersecting_face [GeoObject.solid ⟨[demoFace 0 (some 1) 1 true]⟩]
        origin (1/5)).map Face.id = some 0 := by
  refine ⟨⟨rfl, by norm_num⟩, ?_, ?_⟩
  · intro uv _
    rw [demoFace_sampleDist]
    norm_num
  · have hfo : facesOf [GeoObject.solid ⟨[demoFace 0 (some 1) 1 true]⟩]
        = [demoFace 0 (some 1) 1 true] := rfl
    have s1 : projStep origin none (demoFace 0 (some 1) 1 true)
        = some (demoFace 0 (some 1) 1 true, 1) := rfl
    simp only [find_intersecting_face, hfo, List.foldl_cons, List.foldl_nil, s1]
    rw [if_pos (by norm_num : (1 : ℚ) > 1/5)]
    rw [fallbackStep_of_no_qualifying]
    · rfl
    · intro _ uv _
      rw [demoFace_sampleDist]
      norm_num

/-- C1 (amended): if no face's projection succeeds at all and every fallback
sample distance of every planar face is not below tolerance, then
`find_intersecting_face` returns none; and when the primary pass finds a
minimum-distance face, with no planar-face sample below tolerance, that face
is returned even when its distance exceeds the tolerance. -/
theorem spec2proof_C1_amended :
    ∀ (geo : List GeoObject) (pt : XYZ) (tol : ℚ),
      ((∀ f ∈ facesOf geo, f.project pt = none) →
        (∀ f ∈ facesOf geo, f.isPlanar = true →
          ∀ uv ∈ sample_uvs, ¬ sampleDist pt f uv < tol) →
        find_intersecting_face geo pt tol = none) ∧
      (∀ (f : Face) (m : ℚ),
        (facesOf geo).foldl (projStep pt) none = some (f, m) →
        (∀ g ∈ facesOf geo, g.isPlanar = true →
          ∀ uv ∈ sample_uvs, ¬ sampleDist pt g uv < tol) →
        find_intersecting_face geo pt tol = some f) := by
  intro geo pt tol
  constructor
  · intro h1 h2
    simp only [find_intersecting_face]
    rw [foldl_projStep_of_none h1]
    dsimp only
    rw [foldl_fallbackStep_of_no_qualifying h2]
    rfl
  · intro f m hfold h2
    simp only [find_intersecting_face]
    rw [hfold]
    dsimp only
    by_cases hm : m > tol
    · rw [if_pos hm, foldl_fallbackStep_of_no_qualifying h2]
      rfl
    · rw [if_neg hm]
      rfl

/-- Witness for the amended C1 at concrete inputs: a non-projecting face
whose samples are out of tolerance yields none; a projecting face at
distance 1 with out-of-tolerance samples is returned. -/
theorem spec2proof_C1_witness :
    find_intersecting_face [GeoObject.solid ⟨[demoFace 4 none 1 true]⟩]
        origin (1/5) = none ∧
    find_intersecting_face [GeoObject.solid ⟨[demoFace 0 (some 1) 1 true]⟩]
        origin (1/5) = some (demoFace 0 (some 1) 1 true) :=
  ⟨(spec2proof_C1_amended [GeoObject.solid ⟨[demoFace 4 none 1 true]⟩]
      origin (1/5)).1
    (by intro f hf; rcases List.mem_singleton.mp hf with rfl; rfl)
    (by
      intro f hf _ uv _
      rcases List.mem_singleton.mp hf with rfl
      rw [demoFace_sampleDist]
      norm_num),
   (spec2proof_C1_amended [GeoObject.solid ⟨[demoFace 0 (some 1) 1 true]⟩]
      origin (1/5)).2 (demoFace 0 (some 1) 1 true) 1 rfl
    (by
      intro g hg _ uv _
      rcases List.mem_singleton.mp hg with rfl
      rw [demoFace_sampleDist]
      norm_num)⟩

/-- C3 fails on the code: the fallback pass samples only `PlanarFace`
instances.  A non-planar face with no projection support, all 16 of whose
sample distances are 0 (well below tolerance), is never sampled:
`find_intersecting_face` returns none where the claim demands the face be
accepted. -/
theorem spec2proof_C3_counterexample :
    (demoFace 3 none 0 false).isPlanar = false ∧
    (∀ f ∈ facesOf [GeoObject.solid ⟨[demoFace 3 none 0 false]⟩],
      f.project origin = none) ∧
    (∀ uv ∈ sample_uvs, sampleDist origin (demoFace 3 none 0 false) uv < 1/5) ∧
    (find_intersecting_face [GeoObject.solid ⟨[demoFace 3 none 0 false]⟩]
        origin (1/5)).map Face.id = none := by
  refine ⟨rfl, ?_, ?_, ?_⟩
  · intro f hf
    rcases List.mem_singleton.mp hf with rfl
    rfl
  · intro uv _
    rw [demoFace_sampleDist]
    norm_num
  · simp only [find_intersecting_face]
    rw [foldl_projStep_of_none
      (by intro f hf; rcases List.mem_singleton.mp hf with rfl; rfl)]
    dsimp only
    rw [foldl_fallbackStep_of_no_qualifying]
    · rfl
    · intro f hf hpl
      rcases List.mem_singleton.mp hf with rfl
      exact absurd hpl (by simp [demoFace])

/-- C3 (amended): the fallback grid is the 16 UV pairs with
u, v ∈ {0.2, 0.4, 0.6, 0.8}; the fallback skips non-planar faces entirely;
when no face projects, any face returned is a planar face with some sample
perpendicular distance below tolerance, and conversely some face is returned
whenever a planar face has a sample distance below tolerance. -/
theorem spec2proof_C3_amended :
    ∀ (geo : List GeoObject) (pt : XYZ) (tol : ℚ),
      (sample_uvs = [⟨1/5, 1/5⟩, ⟨1/5, 2/5⟩, ⟨1/5, 3/5⟩, ⟨1/5, 4/5⟩,
        ⟨2/5, 1/5⟩, ⟨2/5, 2/5⟩, ⟨2/5, 3/5⟩, ⟨2/5, 4/5⟩,
        ⟨3/5, 1/5⟩, ⟨3/5, 2/5⟩, ⟨3/5, 3/5⟩, ⟨3/5, 4/5⟩,
        ⟨4/5, 1/5⟩, ⟨4/5, 2/5⟩, ⟨4/5, 3/5⟩, ⟨4/5, 4/5⟩]) ∧
      (∀ (acc : Option (Face × ℚ)) (f : Face), f.isPlanar = false →
        fallbackStep pt tol acc f = acc) ∧
      ((∀ f ∈ facesOf geo, f.project pt = none) →
        ∀ f, find_intersecting_face geo pt tol = some f →
          f.isPlanar = true ∧ ∃ uv ∈ sample_uvs, sampleDist pt f uv < tol) ∧
      ((∀ f ∈ facesOf geo, f.project pt = none) →
        (∃ f ∈ facesOf geo, f.isPlanar = true ∧
          ∃ uv ∈ sample_uvs, sampleDist pt f uv < tol) →
        (find_intersecting_face geo pt tol).isSome = true) := by
  intro geo pt tol
  refine ⟨rfl, fun acc f h => fallbackStep_of_not_planar h, ?_, ?_⟩
  · intro h1 f hf
    simp only [find_intersecting_face] at hf
    rw [foldl_projStep_of_none h1] at hf
    dsimp only at hf
    rcases Option.map_eq_some'.mp hf with ⟨⟨g, m⟩, hfold, rfl⟩
    have hinv := foldl_fallbackStep_inv
      (fun g m h => by cases h) g m hfold
    exact ⟨hinv.1, hinv.2.2.imp fun uv huv =>
      ⟨huv.1, by rw [huv.2]; exact hinv.2.1⟩⟩
  · intro h1 h2
    simp only [find_intersecting_face]
    rw [foldl_projStep_of_none h1]
    dsimp only
    have := @foldl_fallbackStep_isSome_of_qualifying pt tol (facesOf geo) none h2
    cases hq : (facesOf geo).foldl (fallbackStep pt tol) none with
    | none => rw [hq] at this; simp at this
    | some p => rfl

/-- Witness for the amended C3 at concrete inputs: a non-planar face is
skipped by the fallback step, and a planar face with sample distance 0 is
both characterized and found. -/
theorem spec2proof_C3_witness :
    fallbackStep origin (1/5) none (demoFace 3 none 0 false) = none ∧
    ((demoFace 5 none 0 true).isPlanar = true ∧
      ∃ uv ∈ sample_uvs, sampleDist origin (demoFace 5 none 0 true) uv < 1/5) ∧
    (find_intersecting_face [GeoObject.solid ⟨[demoFace 5 none 0 true]⟩]
        origin (1/5)).isSome = true :=
  ⟨(spec2proof_C3_amended [] origin (1/5)).2.1 none (demoFace 3 none 0 false) rfl,
   (spec2proof_C3_amended [GeoObject.solid ⟨[demoFace 5 none 0 true]⟩]
      origin (1/5)).2.2.1
    (by intro f hf; rcases List.mem_singleton.mp hf with rfl; rfl)
    (demoFace 5 none 0 true)
    (by
      norm_num [find_intersecting_face, facesOf, projStep, fallbackStep,
        fallbackUVStep, sample_uvs, sampleDist, demoFace, XYZ.sub,
        XYZ.dotProduct, origin]),
   (spec2proof_C3_amended [GeoObject.solid ⟨[demoFace 5 none 0 true]⟩]
      origin (1/5)).2.2.2
    (by intro f hf; rcases List.mem_singleton.mp hf with rfl; rfl)
    ⟨demoFace 5 none 0 true, List.mem_singleton.mpr rfl, rfl,
      ⟨⟨1/5, 1/5⟩, by norm_num [sample_uvs], by rw [demoFace_sampleDist]; norm_num⟩⟩⟩

/-- C4: whenever the primary pass of `find_intersecting_face` yields a
minimum-distance face within tolerance, that face is returned and the
fallback sampling pass plays no part in the result. -/
theorem spec2proof_C4 :
    ∀ (geo : List GeoObject) (pt : XYZ) (tol : ℚ) (f : Face) (m : ℚ),
      (facesOf geo).foldl (projStep pt) none = some (f, m) → m ≤ tol →
      find_intersecting_face geo pt tol = some f := by
  intro geo pt tol f m hfold hm
  simp only [find_intersecting_face]
  rw [hfold]
  dsimp only
  rw [if_neg (not_lt.mpr hm)]
  rfl

/-- Witness for C4: a face projecting at distance 1/10 under tolerance 1/5
is returned by the primary pass. -/
theorem spec2proof_C4_witness :
    (facesOf [GeoObject.solid ⟨[demoFace 1 (some (1/10)) 1 true]⟩]).foldl
        (projStep origin) none = some (demoFace 1 (some (1/10)) 1 true, 1/10) ∧
    (1/10 : ℚ) ≤ 1/5 ∧
    find_intersecting_face [GeoObject.solid ⟨[demoFace 1 (some (1/10)) 1 true]⟩]
        origin (1/5) = some (demoFace 1 (some (1/10)) 1 true) :=
  ⟨rfl, by norm_num,
   spec2proof_C4 [GeoObject.solid ⟨[demoFace 1 (some (1/10)) 1 true]⟩] origin (1/5)
     (demoFace 1 (some (1/10)) 1 true) (1/10) rfl (by norm_num)⟩

/-- C5: in both matchers, over any geometry whose candidate set is exactly
two faces with projection distances d1 < d2 ≤ tolerance — in whichever
enumeration order the host supplies them, so the tracked minimum is replaced
when the closer face comes second — the d1 face is selected; a tie at the
minimum keeps the first-enumerated face; selection is a pure function of the
inputs. -/
theorem spec2proof_C5 :
    ∀ (geo : List GeoObject) (f1 f2 : Face) (pt : XYZ) (bbox : BoundingBox)
      (base tol d1 d2 : ℚ),
      (f1.project pt = some d1 → f2.project pt = some d2 → d1 < d2 →
        d2 ≤ spec_effective_tolerance bbox base →
        facesOf geo = [f1, f2] ∨ facesOf geo = [f2, f1] →
        find_intersecting_face_based_on_far_end geo pt bbox base = some f1) ∧
      (f1.project pt = some d1 → f2.project pt = some d1 →
        d1 ≤ spec_effective_tolerance bbox base → facesOf geo = [f1, f2] →
        find_intersecting_face_based_on_far_end geo pt bbox base = some f1) ∧
      (f1.project pt = some d1 → f2.project pt = some d2 → d1 < d2 → d2 ≤ tol →
        facesOf geo = [f1, f2] ∨ facesOf geo = [f2, f1] →
        find_intersecting_face geo pt tol = some f1) ∧
      (f1.project pt = some d1 → f2.project pt = some d1 → d1 ≤ tol →
        facesOf geo = [f1, f2] →
        find_intersecting_face geo pt tol = some f1) := by
  intro geo f1 f2 pt bbox base tol d1 d2
  refine ⟨?_, ?_, ?_, ?_⟩
  · intro h1 h2 h3 h4 hfo
    rw [far_end_primary_search]
    rcases hfo with hfo | hfo
    · have s1 : primaryStep pt (spec_effective_tolerance bbox base) none f1
          = some (f1, d1) := by
        simp only [primaryStep, h1]
        rw [if_pos (h3.trans_le h4).le]
      have s2 : primaryStep pt (spec_effective_tolerance bbox base) (some (f1, d1)) f2
          = some (f1, d1) := by
        simp only [primaryStep, h2]
        rw [if_neg (fun hc => absurd hc.1 (not_lt.mpr h3.le))]
      simp only [primary_search, hfo, List.foldl_cons, List.foldl_nil, s1, s2]
      rfl
    · have s1 : primaryStep pt (spec_effective_tolerance bbox base) none f2
          = some (f2, d2) := by
        simp only [primaryStep, h2]
        rw [if_pos h4]
      have s2 : primaryStep pt (spec_effective_tolerance bbox base) (some (f2, d2)) f1
          = some (f1, d1) := by
        simp only [primaryStep, h1]
        rw [if_pos ⟨h3, (h3.trans_le h4).le⟩]
      simp only [primary_search, hfo, List.foldl_cons, List.foldl_nil, s1, s2]
      rfl
  · intro h1 h2 h3 hfo
    rw [far_end_primary_search]
    have s1 : primaryStep pt (spec_effective_tolerance bbox base) none f1
        = some (f1, d1) := by
      simp only [primaryStep, h1]
      rw [if_pos h3]
    have s2 : primaryStep pt (spec_effective_tolerance bbox base) (some (f1, d1)) f2
        = some (f1, d1) := by
      simp only [primaryStep, h2]
      rw [if_neg (fun hc => absurd hc.1 (lt_irrefl d1))]
    simp only [primary_search, hfo, List.foldl_cons, List.foldl_nil, s1, s2]
    rfl
  · intro h1 h2 h3 h4 hfo
    rcases hfo with hfo | hfo
    · have s1 : projStep pt none f1 = some (f1, d1) := by simp [projStep, h1]
      have s2 : projStep pt (some (f1, d1)) f2 = some (f1, d1) := by
        simp only [projStep, h2]
        rw [if_neg (not_lt.mpr h3.le)]
      simp only [find_intersecting_face, hfo, List.foldl_cons, List.foldl_nil, s1, s2]
      rw [if_neg (not_lt.mpr (h3.le.trans h4))]
      rfl
    · have s1 : projStep pt none f2 = some (f2, d2) := by simp [projStep, h2]
      have s2 : projStep pt (some (f2, d2)) f1 = some (f1, d1) := by
        simp only [projStep, h1]
        rw [if_pos h3]
      simp only [find_intersecting_face, hfo, List.foldl_cons, List.foldl_nil, s1, s2]
      rw [if_neg (not_lt.mpr (h3.le.trans h4))]
      rfl
  · intro h1 h2 h3 hfo
    have s1 : projStep pt none f1 = some (f1, d1) := by simp [projStep, h1]
    have s2 : projStep pt (some (f1, d1)) f2 = some (f1, d1) := by
      simp only [projStep, h2]
      rw [if_neg (lt_irrefl d1)]
    simp only [find_intersecting_face, hfo, List.foldl_cons, List.foldl_nil, s1, s2]
    rw [if_neg (not_lt.mpr h3)]
    rfl

/-- Witness for C5 at concrete faces: with the farther face (3/20) enumerated
first and the closer face (1/10) second, the closer face replaces the
tracked minimum and is selected in both matchers; a tie at 1/10 keeps the
first-enumerated face. -/
theorem spec2proof_C5_witness :
    find_intersecting_face_based_on_far_end
        [.solid ⟨[demoFace 2 (some (3/20)) 1 true, demoFace 1 (some (1/10)) 1 true]⟩]
        origin unitBox (1/5) = some (demoFace 1 (some (1/10)) 1 true) ∧
    find_intersecting_face_based_on_far_end
        [.solid ⟨[demoFace 1 (some (1/10)) 1 true, demoFace 2 (some (1/10)) 1 true]⟩]
        origin unitBox (1/5) = some (demoFace 1 (some (1/10)) 1 true) ∧
    find_intersecting_face
        [.solid ⟨[demoFace 2 (some (3/20)) 1 true, demoFace 1 (some (1/10)) 1 true]⟩]
        origin (1/5) = some (demoFace 1 (some (1/10)) 1 true) ∧
    find_intersecting_face
        [.solid ⟨[demoFace 1 (some (1/10)) 1 true, demoFace 2 (some (1/10)) 1 true]⟩]
        origin (1/5) = some (demoFace 1 (some (1/10)) 1 true) :=
  ⟨(spec2proof_C5
      [.solid ⟨[demoFace 2 (some (3/20)) 1 true, demoFace 1 (some (1/10)) 1 true]⟩]
      (demoFace 1 (some (1/10)) 1 true) (demoFace 2 (some (3/20)) 1 true)
      origin unitBox (1/5) (1/5) (1/10) (3/20)).1 rfl rfl (by norm_num)
      (by norm_num [spec_effective_tolerance, unitBox]) (Or.inr rfl),
   (spec2proof_C5
      [.solid ⟨[demoFace 1 (some (1/10)) 1 true, demoFace 2 (some (1/10)) 1 true]⟩]
      (demoFace 1 (some (1/10)) 1 true) (demoFace 2 (some (1/10)) 1 true)
      origin unitBox (1/5) (1/5) (1/10) 0).2.1 rfl rfl
      (by norm_num [spec_effective_tolerance, unitBox]) rfl,
   (spec2proof_C5
      [.solid ⟨[demoFace 2 (some (3/20)) 1 true, demoFace 1 (some (1/10)) 1 true]⟩]
      (demoFace 1 (some (1/10)) 1 true) (demoFace 2 (some (3/20)) 1 true)
      origin unitBox (1/5) (1/5) (1/10) (3/20)).2.2.1 rfl rfl (by norm_num)
      (by norm_num) (Or.inr rfl),
   (spec2proof_C5
      [.solid ⟨[demoFace 1 (some (1/10)) 1 true, demoFace 2 (some (1/10)) 1 true]⟩]
      (demoFace 1 (some (1/10)) 1 true) (demoFace 2 (some (1/10)) 1 true)
      origin unitBox (1/5) (1/5) (1/10) 0).2.2.2 rfl rfl (by norm_num) rfl⟩

/-- C6: a face whose projection returns no result leaves the loop state
unchanged in both primary passes, the search continues over the remaining
faces (deleting such a face from the enumeration changes nothing), and if
every projection fails the far-end matcher reports none rather than
failing. -/
theorem spec2proof_C6 :
    ∀ (pt : XYZ) (tol : ℚ),
      (∀ (acc : Option (Face × ℚ)) (f : Face), f.project pt = none →
        primaryStep pt tol acc f = acc) ∧
      (∀ (acc : Option (Face × ℚ)) (f : Face), f.project pt = none →
        projStep pt acc f = acc) ∧
      (∀ (l1 l2 : List Face) (f : Face) (acc : Option (Face × ℚ)),
        f.project pt = none →
        (l1 ++ f :: l2).foldl (primaryStep pt tol) acc
          = (l1 ++ l2).foldl (primaryStep pt tol) acc) ∧
      (∀ (geo : List GeoObject) (bbox : BoundingBox) (base : ℚ),
        (∀ f ∈ facesOf geo, f.project pt = none) →
        find_intersecting_face_based_on_far_end geo pt bbox base = none) := by
  intro pt tol
  refine ⟨fun acc f h => primaryStep_of_proj_none h,
    fun acc f h => projStep_of_proj_none h, ?_, ?_⟩
  · intro l1 l2 f acc h
    rw [List.foldl_append, List.foldl_append, List.foldl_cons,
      primaryStep_of_proj_none h]
  · intro geo bbox base h
    rw [far_end_primary_search]
    simp only [primary_search]
    rw [foldl_primaryStep_of_not_within]
    · rfl
    · intro f hf d hd
      rw [h f hf] at hd
      cases hd

/-- Witness for C6 at a concrete non-projecting face. -/
theorem spec2proof_C6_witness :
    primaryStep origin (1/5) none (demoFace 4 none 1 true) = none ∧
    projStep origin none (demoFace 4 none 1 true) = none ∧
    ([demoFace 1 (some (1/10)) 1 true] ++ demoFace 4 none 1 true :: []).foldl
        (primaryStep origin (1/5)) none
      = ([demoFace 1 (some (1/10)) 1 true] ++ []).foldl (primaryStep origin (1/5)) none ∧
    find_intersecting_face_based_on_far_end [GeoObject.solid ⟨[demoFace 4 none 1 true]⟩]
        origin unitBox (1/5) = none :=
  ⟨(spec2proof_C6 origin (1/5)).1 none (demoFace 4 none 1 true) rfl,
   (spec2proof_C6 origin (1/5)).2.1 none (demoFace 4 none 1 true) rfl,
   (spec2proof_C6 origin (1/5)).2.2.1 [demoFace 1 (some (1/10)) 1 true] []
     (demoFace 4 none 1 true) none rfl,
   (spec2proof_C6 origin (1/5)).2.2.2 [GeoObject.solid ⟨[demoFace 4 none 1 true]⟩]
     unitBox (1/5)
     (by intro f hf; rcases List.mem_singleton.mp hf with rfl; rfl)⟩

/-- C8: every face returned by `find_intersecting_face_based_on_far_end`
projects within the computed (possibly scaled) tolerance; the function never
consults the sampling callbacks (replacing every face's `Evaluate` /
`ComputeNormal` merely revises the returned face); and it returns none
whenever no face projects within tolerance. -/
theorem spec2proof_C8 :
    ∀ (geo : List GeoObject) (pt : XYZ) (bbox : BoundingBox) (base : ℚ),
      (∀ f : Face, find_intersecting_face_based_on_far_end geo pt bbox base = some f →
        ∃ d, f.project pt = some d ∧ d ≤ spec_effective_tolerance bbox base) ∧
      (∀ E N : UV → XYZ,
        find_intersecting_face_based_on_far_end (geo.map (reviseGeo E N)) pt bbox base
          = (find_intersecting_face_based_on_far_end geo pt bbox base).map
              (reviseSampling E N)) ∧
      ((∀ f ∈ facesOf geo, ∀ d, f.project pt = some d →
          ¬ d ≤ spec_effective_tolerance bbox base) →
        find_intersecting_face_based_on_far_end geo pt bbox base = none) := by
  intro geo pt bbox base
  refine ⟨?_, ?_, ?_⟩
  · intro f hf
    rw [far_end_primary_search] at hf
    simp only [primary_search] at hf
    rcases Option.map_eq_some'.mp hf with ⟨⟨g, m⟩, hfold, rfl⟩
    exact ⟨m, foldl_primaryStep_inv (fun g m h => by cases h) g m hfold⟩
  · intro E N
    rw [far_end_primary_search, far_end_primary_search]
    simp only [primary_search, facesOf_map_reviseGeo]
    have h := foldl_primaryStep_revise pt (spec_effective_tolerance bbox base) E N
      (facesOf geo) none
    simp only [Option.map_none'] at h
    rw [h]
    cases (facesOf geo).foldl (primaryStep pt (spec_effective_tolerance bbox base))
        none with
    | none => rfl
    | some p => rfl
  · intro h
    rw [far_end_primary_search]
    simp only [primary_search]
    rw [foldl_primaryStep_of_not_within h]
    rfl

/-- Witness for C8: a face at distance 1/10 is returned and satisfies the
postcondition; sampling revision does not change the outcome; a face at
distance 1 makes the matcher return none. -/
theorem spec2proof_C8_witness :
    (∃ d, (demoFace 1 (some (1/10)) 1 true).project origin = some d ∧
      d ≤ spec_effective_tolerance unitBox (1/5)) ∧
    find_intersecting_face_based_on_far_end
        ([GeoObject.solid ⟨[demoFace 1 (some (1/10)) 1 true]⟩].map
          (reviseGeo (fun _ => origin) (fun _ => origin)))
        origin unitBox (1/5)
      = (find_intersecting_face_based_on_far_end
          [GeoObject.solid ⟨[demoFace 1 (some (1/10)) 1 true]⟩] origin unitBox (1/5)).map
          (reviseSampling (fun _ => origin) (fun _ => origin)) ∧
    find_intersecting_face_based_on_far_end [GeoObject.solid ⟨[demoFace 0 (some 1) 1 true]⟩]
        origin unitBox (1/5) = none :=
  ⟨(spec2proof_C8 [GeoObject.solid ⟨[demoFace 1 (some (1/10)) 1 true]⟩] origin
      unitBox (1/5)).1 (demoFace 1 (some (1/10)) 1 true)
    (by
      rw [far_end_primary_search]
      simp only [primary_search]
      norm_num [facesOf, primaryStep, demoFace, spec_effective_tolerance, unitBox]),
   (spec2proof_C8 [GeoObject.solid ⟨[demoFace 1 (some (1/10)) 1 true]⟩] origin
      unitBox (1/5)).2.1 (fun _ => origin) (fun _ => origin),
   (spec2proof_C8 [GeoObject.solid ⟨[demoFace 0 (some 1) 1 true]⟩] origin
      unitBox (1/5)).2.2
    (by
      intro f hf d hd
      rcases List.mem_singleton.mp hf with rfl
      obtain rfl : (1 : ℚ) = d := by simpa [demoFace] using hd
      norm_num [spec_effective_tolerance, unitBox])⟩
